import Mathlib

/-!
Shallow embedding of `dump.py`, a decoder for the .NET binary serialization
(NRBF) wire format, together with theorems settling the frozen claims about
its natural-language specification.

Conventions of the embedding:
* The byte stream is a `List Nat` (each entry one byte, `< 256` on real inputs).
* Python's module-level dictionaries `LIBRARIES` and `OBJECTS` become fields of
  an explicit state `St` threaded through every decode function; a dictionary
  store `d[k] = v` is modeled by consing `(k, v)` in front (lookup returns the
  most recent binding, matching dict overwrite semantics).
* Python exceptions become an error type `DErr`; each constructor records which
  concrete Python exception site it models.
* Strings are decoded byte-per-char (exact for the ASCII names the program
  compares against; the source's UTF-8 error path is not exercised by any claim).
* The mutually recursive record readers take a fuel parameter; fuel exhaustion
  is an artifact of the embedding (`DErr.outOfFuel`), never the behaviour of the
  source for sufficiently large fuel.
-/

/-- RecordType tags (dump.py `RecordType`); the decoder only needs the raw tag
byte, so we keep tags as `Nat` and record which values are valid enum members. -/
def validRecordTag (t : Nat) : Bool :=
  t ≤ 17 || t == 21 || t == 22

/-- dump.py `BinaryType`. -/
inductive BinaryType where
  | Primitive | String | Object | SystemClass | Class | ObjectArray
  | StringArray | PrimitiveArray
deriving DecidableEq, Repr

def BinaryType.ofNat? : Nat → Option BinaryType
  | 0 => some .Primitive
  | 1 => some .String
  | 2 => some .Object
  | 3 => some .SystemClass
  | 4 => some .Class
  | 5 => some .ObjectArray
  | 6 => some .StringArray
  | 7 => some .PrimitiveArray
  | _ => none

/-- dump.py `BinaryArrayType`. -/
inductive BinaryArrayType where
  | Single | Jagged | Rectangular | SingleOffset | JaggedOffset | RectangularOffset
deriving DecidableEq, Repr

def BinaryArrayType.ofInt? : Int → Option BinaryArrayType
  | 0 => some .Single
  | 1 => some .Jagged
  | 2 => some .Rectangular
  | 3 => some .SingleOffset
  | 4 => some .JaggedOffset
  | 5 => some .RectangularOffset
  | _ => none

/-- True for the three `*Offset` kinds, which carry per-dimension lower bounds. -/
def BinaryArrayType.hasLowerBounds : BinaryArrayType → Bool
  | .SingleOffset | .JaggedOffset | .RectangularOffset => true
  | _ => false

/-- dump.py `PrimitiveType`. -/
inductive PrimitiveType where
  | Boolean | Byte | Char | Decimal | Double | Int16 | Int32 | Int64
  | SByte | Single | TimeSpan | DateTime | UInt16 | UInt32 | UInt64
  | Null | String
deriving DecidableEq, Repr

def PrimitiveType.ofNat? : Nat → Option PrimitiveType
  | 1 => some .Boolean
  | 2 => some .Byte
  | 3 => some .Char
  | 5 => some .Decimal
  | 6 => some .Double
  | 7 => some .Int16
  | 8 => some .Int32
  | 9 => some .Int64
  | 10 => some .SByte
  | 11 => some .Single
  | 12 => some .TimeSpan
  | 13 => some .DateTime
  | 14 => some .UInt16
  | 15 => some .UInt32
  | 16 => some .UInt64
  | 17 => some .Null
  | 18 => some .String
  | _ => none

/-- Decoded primitive values (results of dump.py `read_primitive`).
`pDateTime` stores the final `datetime` as a signed microsecond offset from
`datetime(1, 1, 1)`. -/
inductive Prim where
  | pBool (b : Bool)
  | pInt (i : Int)
  | pDateTime (microseconds : Int)
deriving DecidableEq, Repr

/-- dump.py `ClassInfo`. -/
structure ClassInfo where
  ObjectId : Int
  Name : String
  MemberCount : Int
  MemberNames : List String
deriving DecidableEq, Repr

/-- Result of dump.py `AdditionalTypeInfo` (one of a PrimitiveType enum value,
a system-class name string, a `ClassTypeInfo` pair, or `None`). -/
inductive AddInfo where
  | primType (p : PrimitiveType)
  | sysClassName (s : String)
  | classTypeInfo (typeName : String) (libraryId : Int)
  | noInfo
deriving DecidableEq, Repr

/-- dump.py `MemberTypeInfo`. -/
structure MemberTypeInfo where
  BinaryTypeEnums : List BinaryType
  AdditionalInfos : List AddInfo
deriving DecidableEq, Repr

mutual
/-- A decoded member/element value: either a primitive (from `read_primitive`)
or a nested record (from `read_record`), mirroring what dump.py's
`read_typed_member` can return. -/
inductive Value where
  | prim (p : Prim)
  | record (r : Record)

/-- The record union produced by dump.py's `fromfile` constructors. Attributes
that Python stamps onto the namedtuples after construction (`memberdata`,
`classref`, `arraydata`) are ordinary fields here; records are registered in
the object table first with those fields empty (`[]`/`none`) and the slot is
refreshed once member decoding finishes, which is observationally the
aliasing behaviour of the Python code. -/
inductive Record where
  | serializedStreamHeader (TopId HeaderId MajorVersion MinorVersion : Int)
  | binaryLibrary (LibraryId : Int) (LibraryName : String)
  | classWithMembersAndTypes (ci : ClassInfo) (mti : MemberTypeInfo)
      (LibraryId : Int) (memberdata : List Value)
  | classWithMembers (ci : ClassInfo) (LibraryId : Int) (memberdata : List Value)
  | systemClassWithMembers (ci : ClassInfo) (memberdata : List Value)
  | classWithId (ObjectId MetadataId : Int) (classref : Option Record)
      (memberdata : List Value)
  | binaryObjectString (ObjectId : Int) (Value : String)
  | memberReference (IdRef : Int)
  | objectNull
  | objectNullMultiple (NullCount : Int)
  | objectNullMultiple256 (NullCount : Int)
  | binaryArray (ObjectId : Int) (batype : BinaryArrayType) (Rank : Int)
      (Lengths : List Int) (LowerBounds : Option (List Int))
      (TypeEnum : BinaryType) (info : AddInfo) (arraydata : List Value)
  | arraySinglePrimitive (ObjectId : Int) (Length : Int) (ptype : PrimitiveType)
      (arraydata : List Prim)
end

deriving instance Repr for Value, Record

/-- Decode errors; each constructor documents the Python exception it models.
`outOfFuel` is an artifact of the fuel-based embedding only. -/
inductive DErr where
  | eof
  | outOfFuel
  | structShort
  | ordEof
  | unknownRecordType (tag : Nat)
  | unsupportedRecordType (tag : Nat)
  | unknownEnumValue (v : Int)
  | unresolvedReference (id : Int)
  | notAClassTemplate (id : Int)
  | attributeError (attr : String)
  | valueErrorPrimitive (p : PrimitiveType)
  | valueErrorSystemClass (name : String)
  | valueErrorUnknownMember (cls mem : String)
  | overflowError
  | recursionError
deriving DecidableEq, Repr

/- `DErr.eof`: `EOFError` raised by `read_record` when the tag read is empty.
`DErr.structShort`: `struct.error` from `struct.unpack` on a short read.
`DErr.ordEof`: `TypeError` from `ord(f.read(1))` on an empty read.
`DErr.unknownRecordType`: `ValueError` from `RecordType(tag)`.
`DErr.unsupportedRecordType`: `KeyError` from `globals()[rtype.name]` when the
record class has no implementation in dump.py.
`DErr.unknownEnumValue`: `ValueError` from `BinaryType(..)`/`PrimitiveType(..)`/
`BinaryArrayType(..)` conversion.
`DErr.unresolvedReference`: `KeyError` from `OBJECTS[mdid]` in
`ClassWithId.fromfile`.
`DErr.notAClassTemplate`: `AttributeError` when the object resolved for a
`ClassWithId` metadata id has no `read_members` layout (e.g. a string); the
carried id is the metadata id whose resolution lacked a layout.
`DErr.attributeError`: other attribute errors (missing `classref` on a
still-preliminary `ClassWithId`).
`DErr.valueError*`: the three explicit `raise ValueError` sites.
`DErr.overflowError`: `OverflowError` from `datetime.datetime(1,1,1) + td`
when the result is outside Python's representable datetime range.
`DErr.recursionError`: `RecursionError` for the self-aliased `ClassWithId`
(`MetadataId` equal to its own `ObjectId`): the store `OBJECTS[objid] = ret`
makes `ret.classref = OBJECTS[mdid]` the record itself, and
`ret.read_members` then recurses without bound. -/

/-- Decode session state: the remaining input plus the two module-level tables
`OBJECTS` and `LIBRARIES` of dump.py. -/
structure St where
  input : List Nat
  objects : List (Int × Record)
  libraries : List (Int × Record)
deriving Repr

abbrev DResult (α : Type) := Except DErr α

/-- Dictionary store `d[k] = v`: the new binding shadows any older one. -/
def insertObject (k : Int) (r : Record) (s : St) : St :=
  { s with objects := (k, r) :: s.objects }

def insertLibrary (k : Int) (r : Record) (s : St) : St :=
  { s with libraries := (k, r) :: s.libraries }

/-- Dictionary lookup `d[k]` (first, i.e. most recent, binding wins). -/
def lookupTable (k : Int) : List (Int × Record) → Option Record
  | [] => none
  | (k', v) :: t => if k' = k then some v else lookupTable k t

def lookupObject (k : Int) (s : St) : Option Record :=
  lookupTable k s.objects

/-- `f.read(k)` followed by a width check, as `struct.unpack` performs:
`none` models `struct.error` on a short read. -/
def takeExact (k : Nat) (l : List Nat) : Option (List Nat × List Nat) :=
  if l.length < k then none else some (l.take k, l.drop k)

/-- Little-endian accumulation of a byte list into an unsigned integer. -/
def leUInt (bs : List Nat) : Nat :=
  bs.foldr (fun b acc => b + 256 * acc) 0

/-- Two's-complement reinterpretation of a `w`-bit unsigned value, as
`struct.unpack` does for the signed format codes. -/
def toSigned (w : Nat) (v : Nat) : Int :=
  if v < 2 ^ (w - 1) then (v : Int) else (v : Int) - 2 ^ w

/-- Split a byte list into little-endian unsigned fields of the given widths
(helper for multi-field `readstruct` format strings). -/
def structFields : List Nat → List Nat → List Nat
  | [], _ => []
  | w :: ws, bs => leUInt (bs.take w) :: structFields ws (bs.drop w)

/-- `readstruct(f, 'i')`. -/
def readInt32 (s : St) : DResult (Int × St) :=
  match takeExact 4 s.input with
  | none => .error .structShort
  | some (bs, rest) => .ok (toSigned 32 (leUInt bs), { s with input := rest })

/-- `readstruct(f, 'ii')` (both fields unpacked from one 8-byte read). -/
def readPairInt32 (s : St) : DResult ((Int × Int) × St) :=
  match takeExact 8 s.input with
  | none => .error .structShort
  | some (bs, rest) =>
      .ok ((toSigned 32 (leUInt (bs.take 4)), toSigned 32 (leUInt (bs.drop 4))),
           { s with input := rest })

/-- `ord(f.read(1))`: `TypeError` when the stream is exhausted. -/
def readByteOrd (s : St) : DResult (Nat × St) :=
  match s.input with
  | [] => .error .ordEof
  | b :: rest => .ok (b, { s with input := rest })

/-- The length loop of dump.py `readvarstr`: `n += (c & 0x7f) << v`, continue
while the high bit of `c` is set. -/
def readvarlen : List Nat → Nat → Nat → DResult (Nat × List Nat)
  | [], _, _ => .error .ordEof
  | c :: rest, n, v =>
      if c &&& 0x80 ≠ 0 then readvarlen rest (n + ((c &&& 0x7f) <<< v)) (v + 7)
      else .ok (n + ((c &&& 0x7f) <<< v), rest)

/-- Byte-per-char string decoding (exact for the ASCII names dump.py compares). -/
def decodeStr (bs : List Nat) : String :=
  String.mk (bs.map Char.ofNat)

/-- dump.py `readvarstr`: varint length, then that many payload bytes
(`f.read(n)` silently returns fewer at end of stream, as in the source). -/
def readvarstr (s : St) : DResult (String × St) :=
  match readvarlen s.input 0 0 with
  | .error e => .error e
  | .ok (n, rest) => .ok (decodeStr (rest.take n), { s with input := rest.drop n })

/-- Maximum microsecond offset representable by Python's `datetime` above
`datetime(1, 1, 1)` (through 9999-12-31 23:59:59.999999). -/
def dtMaxMicros : Int := 315537897599999999

/-- Round-half-to-even of `t / 10` (the `datetime.timedelta` microsecond
rounding applied to the source's `val / 10.0`; modeled as one exact rational
rounding). -/
def roundHalfEven10 (t : Int) : Int :=
  let q := Int.fdiv t 10
  let r := t - 10 * q
  if r < 5 then q
  else if 5 < r then q + 1
  else if q % 2 = 0 then q else q + 1

/-- dump.py `read_primitive`. The DateTime branch reads an unsigned 64-bit
little-endian value, discards the top 2 kind-tag bits (`val &= ~(3 << 62)`,
i.e. `% 2^62` for a value below `2^64`), sign-adjusts on bit 61
(`val -= 1 << 62`), and builds `datetime(1,1,1) + timedelta(microseconds=val/10.0)`,
which raises `OverflowError` when the result leaves the representable range. -/
def read_primitive (p : PrimitiveType) (s : St) : DResult (Prim × St) :=
  match p with
  | .Boolean =>
      match takeExact 1 s.input with
      | none => .error .structShort
      | some (bs, rest) => .ok (.pBool (leUInt bs ≠ 0), { s with input := rest })
  | .Byte =>
      match takeExact 1 s.input with
      | none => .error .structShort
      | some (bs, rest) => .ok (.pInt (leUInt bs), { s with input := rest })
  | .UInt32 =>
      match takeExact 4 s.input with
      | none => .error .structShort
      | some (bs, rest) => .ok (.pInt (leUInt bs), { s with input := rest })
  | .Int32 =>
      match takeExact 4 s.input with
      | none => .error .structShort
      | some (bs, rest) => .ok (.pInt (toSigned 32 (leUInt bs)), { s with input := rest })
  | .UInt16 =>
      match takeExact 2 s.input with
      | none => .error .structShort
      | some (bs, rest) => .ok (.pInt (leUInt bs), { s with input := rest })
  | .Int16 =>
      match takeExact 2 s.input with
      | none => .error .structShort
      | some (bs, rest) => .ok (.pInt (toSigned 16 (leUInt bs)), { s with input := rest })
  | .UInt64 =>
      match takeExact 8 s.input with
      | none => .error .structShort
      | some (bs, rest) => .ok (.pInt (leUInt bs), { s with input := rest })
  | .Int64 =>
      match takeExact 8 s.input with
      | none => .error .structShort
      | some (bs, rest) => .ok (.pInt (toSigned 64 (leUInt bs)), { s with input := rest })
  | .DateTime =>
      match takeExact 8 s.input with
      | none => .error .structShort
      | some (bs, rest) =>
          let val := leUInt bs
          let v62 := val % 2 ^ 62
          let t : Int := if v62 / 2 ^ 61 % 2 = (1 : Nat) then (v62 : Int) - 2 ^ 62 else (v62 : Int)
          let micros := roundHalfEven10 t
          if micros < 0 ∨ dtMaxMicros < micros then .error .overflowError
          else .ok (.pDateTime micros, { s with input := rest })
  | _ => .error (.valueErrorPrimitive p)

/-- Little-endian signed 32-bit fields of a byte list (helper for `'i' * k`
format strings). -/
def leInt32Fields : List Nat → List Int
  | b0 :: b1 :: b2 :: b3 :: rest =>
      toSigned 32 (b0 + 256 * (b1 + 256 * (b2 + 256 * b3))) :: leInt32Fields rest
  | _ => []

/-- `readstruct(f, 'i' * k)`: one unpack of `4 * k` bytes. -/
def readInt32s (k : Nat) (s : St) : DResult (List Int × St) :=
  match takeExact (4 * k) s.input with
  | none => .error .structShort
  | some (bs, rest) => .ok (leInt32Fields bs, { s with input := rest })

/-- A run of `readvarstr` calls (the member-name list comprehension of
`ClassInfo.fromfile`). -/
def readVarStrs : Nat → St → DResult (List String × St)
  | 0, s => .ok ([], s)
  | k + 1, s =>
      match readvarstr s with
      | .error e => .error e
      | .ok (n, s) =>
          match readVarStrs k s with
          | .error e => .error e
          | .ok (ns, s) => .ok (n :: ns, s)

/-- dump.py `ClassInfo.fromfile`: object id, class name, member count, then
that many member names.  `range(membercount)` on a negative count is empty,
hence `toNat`. -/
def classInfo_fromfile (s : St) : DResult (ClassInfo × St) :=
  match readInt32 s with
  | .error e => .error e
  | .ok (objid, s) =>
      match readvarstr s with
      | .error e => .error e
      | .ok (name, s) =>
          match readInt32 s with
          | .error e => .error e
          | .ok (membercount, s) =>
              match readVarStrs membercount.toNat s with
              | .error e => .error e
              | .ok (members, s) =>
                  .ok ({ ObjectId := objid, Name := name,
                         MemberCount := membercount, MemberNames := members }, s)

/-- dump.py `AdditionalTypeInfo`. -/
def additionalTypeInfo (ty : BinaryType) (s : St) : DResult (AddInfo × St) :=
  if ty = .Primitive ∨ ty = .PrimitiveArray then
    match readByteOrd s with
    | .error e => .error e
    | .ok (b, s) =>
        match PrimitiveType.ofNat? b with
        | none => .error (.unknownEnumValue (b : Int))
        | some p => .ok (.primType p, s)
  else if ty = .SystemClass then
    match readvarstr s with
    | .error e => .error e
    | .ok (n, s) => .ok (.sysClassName n, s)
  else if ty = .Class then
    match readvarstr s with
    | .error e => .error e
    | .ok (n, s) =>
        match readInt32 s with
        | .error e => .error e
        | .ok (lib, s) => .ok (.classTypeInfo n lib, s)
  else .ok (.noInfo, s)

/-- First pass of `MemberTypeInfo.fromfile`: all the one-byte BinaryType tags. -/
def readBinaryTypes : Nat → St → DResult (List BinaryType × St)
  | 0, s => .ok ([], s)
  | k + 1, s =>
      match readByteOrd s with
      | .error e => .error e
      | .ok (b, s) =>
          match BinaryType.ofNat? b with
          | none => .error (.unknownEnumValue (b : Int))
          | some ty =>
              match readBinaryTypes k s with
              | .error e => .error e
              | .ok (tys, s) => .ok (ty :: tys, s)

/-- Second pass of `MemberTypeInfo.fromfile`: one `AdditionalTypeInfo` per tag,
in tag order. -/
def readAddInfos : List BinaryType → St → DResult (List AddInfo × St)
  | [], s => .ok ([], s)
  | ty :: tys, s =>
      match additionalTypeInfo ty s with
      | .error e => .error e
      | .ok (info, s) =>
          match readAddInfos tys s with
          | .error e => .error e
          | .ok (infos, s) => .ok (info :: infos, s)

/-- dump.py `MemberTypeInfo.fromfile`. -/
def memberTypeInfo_fromfile (count : Nat) (s : St) : DResult (MemberTypeInfo × St) :=
  match readBinaryTypes count s with
  | .error e => .error e
  | .ok (tys, s) =>
      match readAddInfos tys s with
      | .error e => .error e
      | .ok (infos, s) => .ok ({ BinaryTypeEnums := tys, AdditionalInfos := infos }, s)

/-- Metadata prefix of `ClassWithMembersAndTypes.fromfile`: ClassInfo,
MemberTypeInfo, LibraryId — everything read before the object is registered. -/
def cwmat_header (s : St) : DResult ((ClassInfo × MemberTypeInfo × Int) × St) :=
  match classInfo_fromfile s with
  | .error e => .error e
  | .ok (ci, s) =>
      match memberTypeInfo_fromfile ci.MemberCount.toNat s with
      | .error e => .error e
      | .ok (mti, s) =>
          match readInt32 s with
          | .error e => .error e
          | .ok (lib, s) => .ok ((ci, mti, lib), s)

/-- Metadata prefix of `ClassWithMembers.fromfile`: ClassInfo and LibraryId. -/
def cwm_header (s : St) : DResult ((ClassInfo × Int) × St) :=
  match classInfo_fromfile s with
  | .error e => .error e
  | .ok (ci, s) =>
      match readInt32 s with
      | .error e => .error e
      | .ok (lib, s) => .ok ((ci, lib), s)

/-- Metadata prefix of `BinaryArray.fromfile`: `readstruct(f, 'ibi')`, the
per-dimension lengths, optional lower bounds, and the element type tag with
its additional info. -/
def binaryArray_header (s : St) :
    DResult ((Int × BinaryArrayType × Int × List Int × Option (List Int) ×
              BinaryType × AddInfo) × St) :=
  match takeExact 9 s.input with
  | none => .error .structShort
  | some (bs, rest) =>
      let objid := toSigned 32 (leUInt (bs.take 4))
      let batypeRaw := toSigned 8 (leUInt ((bs.drop 4).take 1))
      let rank := toSigned 32 (leUInt (bs.drop 5))
      match BinaryArrayType.ofInt? batypeRaw with
      | none => .error (.unknownEnumValue batypeRaw)
      | some batype =>
          match readInt32s rank.toNat { s with input := rest } with
          | .error e => .error e
          | .ok (lengths, s) =>
              let lbsRes : DResult (Option (List Int) × St) :=
                if batype.hasLowerBounds then
                  match readInt32s rank.toNat s with
                  | .error e => .error e
                  | .ok (lbs, s) => .ok (some lbs, s)
                else .ok (none, s)
              match lbsRes with
              | .error e => .error e
              | .ok (lbs, s) =>
                  match readByteOrd s with
                  | .error e => .error e
                  | .ok (b, s) =>
                      match BinaryType.ofNat? b with
                      | none => .error (.unknownEnumValue (b : Int))
                      | some ty =>
                          match additionalTypeInfo ty s with
                          | .error e => .error e
                          | .ok (info, s) =>
                              .ok ((objid, batype, rank, lengths, lbs, ty, info), s)

/-- dump.py `SerializedStreamHeader.fromfile` (`readstruct(f, 'iiii')`). -/
def serializedStreamHeader_fromfile (s : St) : DResult (Record × St) :=
  match takeExact 16 s.input with
  | none => .error .structShort
  | some (bs, rest) =>
      match leInt32Fields bs with
      | [a, b, c, d] => .ok (.serializedStreamHeader a b c d, { s with input := rest })
      | _ => .error .structShort

/-- dump.py `BinaryLibrary.fromfile`: registers into the Library Table. -/
def binaryLibrary_fromfile (s : St) : DResult (Record × St) :=
  match readInt32 s with
  | .error e => .error e
  | .ok (libid, s) =>
      match readvarstr s with
      | .error e => .error e
      | .ok (name, s) =>
          let ret := Record.binaryLibrary libid name
          .ok (ret, insertLibrary libid ret s)

/-- dump.py `BinaryObjectString.fromfile`: registers into the Object Graph
Table (plain dict store, no duplicate check). -/
def binaryObjectString_fromfile (s : St) : DResult (Record × St) :=
  match readInt32 s with
  | .error e => .error e
  | .ok (objid, s) =>
      match readvarstr s with
      | .error e => .error e
      | .ok (v, s) =>
          let ret := Record.binaryObjectString objid v
          .ok (ret, insertObject objid ret s)

/-- dump.py `MemberReference.fromfile`: reads the IdRef and nothing else — in
particular it performs no lookup in the Object Graph Table. -/
def memberReference_fromfile (s : St) : DResult (Record × St) :=
  match readInt32 s with
  | .error e => .error e
  | .ok (idref, s) => .ok (.memberReference idref, s)

/-- dump.py `ObjectNull.fromfile`. -/
def objectNull_fromfile (s : St) : DResult (Record × St) :=
  .ok (.objectNull, s)

/-- dump.py `ObjectNullMultiple.fromfile` (`readstruct(f, 'i')`, signed). -/
def objectNullMultiple_fromfile (s : St) : DResult (Record × St) :=
  match readInt32 s with
  | .error e => .error e
  | .ok (c, s) => .ok (.objectNullMultiple c, s)

/-- dump.py `ObjectNullMultiple256.fromfile` (`readstruct(f, 'b')`: one SIGNED
byte). -/
def objectNullMultiple256_fromfile (s : St) : DResult (Record × St) :=
  match takeExact 1 s.input with
  | none => .error .structShort
  | some (bs, rest) =>
      .ok (.objectNullMultiple256 (toSigned 8 (leUInt bs)), { s with input := rest })

/-- The element loop of `ArraySinglePrimitive.read_arraydata`. -/
def readPrimitives (p : PrimitiveType) : Nat → St → DResult (List Prim × St)
  | 0, s => .ok ([], s)
  | k + 1, s =>
      match read_primitive p s with
      | .error e => .error e
      | .ok (v, s) =>
          match readPrimitives p k s with
          | .error e => .error e
          | .ok (vs, s) => .ok (v :: vs, s)

/-- Metadata prefix of `ArraySinglePrimitive.fromfile`: ArrayInfo (`'ii'`) and
the element PrimitiveType byte — everything read before registration. -/
def asp_header (s : St) : DResult ((Int × Int × PrimitiveType) × St) :=
  match readPairInt32 s with
  | .error e => .error e
  | .ok ((objid, len), s) =>
      match readByteOrd s with
      | .error e => .error e
      | .ok (b, s) =>
          match PrimitiveType.ofNat? b with
          | none => .error (.unknownEnumValue (b : Int))
          | some p => .ok ((objid, len, p), s)

/-- The object stored into `OBJECTS` by `ArraySinglePrimitive.fromfile` before
any element payload is read (`arraydata` still unset). -/
def aspPrelim (objid len : Int) (p : PrimitiveType) : Record :=
  .arraySinglePrimitive objid len p []

/-- Element-payload stage of `ArraySinglePrimitive.fromfile`: everything
executed after `OBJECTS[arrinfo.ObjectId] = ret`. -/
def asp_members_stage (objid len : Int) (p : PrimitiveType) (s : St) :
    DResult (Record × St) :=
  match readPrimitives p len.toNat s with
  | .error e => .error e
  | .ok (data, s) =>
      let final := Record.arraySinglePrimitive objid len p data
      .ok (final, insertObject objid final s)

/-- dump.py `ArraySinglePrimitive.fromfile`: ArrayInfo (`'ii'`), the element
PrimitiveType, registration, then exactly `Length` primitives. -/
def arraySinglePrimitive_fromfile (s : St) : DResult (Record × St) :=
  match asp_header s with
  | .error e => .error e
  | .ok ((objid, len, p), s) =>
      asp_members_stage objid len p (insertObject objid (aspPrelim objid len p) s)

/-- The object stored into `OBJECTS` by `ClassWithMembersAndTypes.fromfile`
before any member payload is read (`memberdata` still unset). -/
def cwmatPrelim (ci : ClassInfo) (mti : MemberTypeInfo) (lib : Int) : Record :=
  .classWithMembersAndTypes ci mti lib []

/-- As `cwmatPrelim`, for `ClassWithMembers.fromfile`. -/
def cwmPrelim (ci : ClassInfo) (lib : Int) : Record :=
  .classWithMembers ci lib []

/-- As `cwmatPrelim`, for `SystemClassWithMembers.fromfile`. -/
def scwmPrelim (ci : ClassInfo) : Record :=
  .systemClassWithMembers ci []

/-- As `cwmatPrelim`, for `BinaryArray.fromfile` (`arraydata` still unset). -/
def baPrelim (objid : Int) (batype : BinaryArrayType) (rank : Int)
    (lengths : List Int) (lbs : Option (List Int)) (ty : BinaryType)
    (info : AddInfo) : Record :=
  .binaryArray objid batype rank lengths lbs ty info []

/-- Logical-position advance of one decoded array element in
`BinaryArray.read_arraydata`: the null count for a null-run marker, 1 for
anything else. -/
def arrayStep : Value → Int
  | .record (.objectNullMultiple c) => c
  | .record (.objectNullMultiple256 c) => c
  | _ => 1

/-- Declared element budget of a `BinaryArray` (`n = 1; for i in Lengths: n *= i`). -/
def arrayCount (lengths : List Int) : Int :=
  lengths.foldl (· * ·) 1

/-- Total number of logical array positions consumed by a decoded element
sequence (1 per concrete element, the null count per null-run marker). -/
def consumedPositions (data : List Value) : Int :=
  (data.map arrayStep).sum

mutual

/-- dump.py `read_record`: read one tag byte (`EOFError` when the stream is
exhausted there), convert it to `RecordType` (`ValueError` on an invalid tag),
and dispatch to the record class's `fromfile` (`KeyError` when dump.py defines
no class for a recognized tag). -/
def read_record (fuel : Nat) (s : St) : DResult (Record × St) :=
  match fuel with
  | 0 => .error .outOfFuel
  | fuel + 1 =>
      match s.input with
      | [] => .error .eof
      | tag :: rest =>
          let s := { s with input := rest }
          match tag with
          | 0 => serializedStreamHeader_fromfile s
          | 1 => classWithId_fromfile fuel s
          | 2 => systemClassWithMembers_fromfile fuel s
          | 3 => classWithMembers_fromfile fuel s
          | 5 => classWithMembersAndTypes_fromfile fuel s
          | 6 => binaryObjectString_fromfile s
          | 7 => binaryArray_fromfile fuel s
          | 9 => memberReference_fromfile s
          | 10 => objectNull_fromfile s
          | 12 => binaryLibrary_fromfile s
          | 13 => objectNullMultiple256_fromfile s
          | 14 => objectNullMultiple_fromfile s
          | 15 => arraySinglePrimitive_fromfile s
          | t =>
              if validRecordTag t then .error (.unsupportedRecordType t)
              else .error (.unknownRecordType t)

/-- dump.py `read_typed_member`: `Primitive` members via the primitive codec,
every other member kind by recursively reading a full record. -/
def read_typed_member (fuel : Nat) (ty : BinaryType) (info : AddInfo) (s : St) :
    DResult (Value × St) :=
  match fuel with
  | 0 => .error .outOfFuel
  | fuel + 1 =>
      match ty with
      | .Primitive =>
          match info with
          | .primType p =>
              match read_primitive p s with
              | .error e => .error e
              | .ok (pr, s) => .ok (.prim pr, s)
          | _ => .error (.attributeError "name")
      | _ =>
          match read_record fuel s with
          | .error e => .error e
          | .ok (r, s) => .ok (.record r, s)

/-- The member loop of `ClassWithMembersAndTypes.read_members`: one
`read_typed_member` per member position.  (The source indexes
`BinaryTypeEnums[i]` and `AdditionalInfos[i]` for `i in range(MemberCount)`;
both lists are built with exactly `MemberCount` entries, so the loop walks
them in lockstep.) -/
def read_members_typed (fuel : Nat) (tys : List BinaryType) (infos : List AddInfo)
    (s : St) : DResult (List Value × St) :=
  match fuel with
  | 0 => .error .outOfFuel
  | fuel + 1 =>
      match tys, infos with
      | [], _ => .ok ([], s)
      | ty :: tys, info :: infos =>
          match read_typed_member fuel ty info s with
          | .error e => .error e
          | .ok (v, s) =>
              match read_members_typed fuel tys infos s with
              | .error e => .error e
              | .ok (vs, s) => .ok (v :: vs, s)
      | _ :: _, [] => .error (.attributeError "AdditionalInfos")

/-- dump.py `read_unknown_member`: the hardcoded name dispatch used by
`ClassWithMembers.read_members`. -/
def read_unknown_member (fuel : Nat) (clsname membername : String) (s : St) :
    DResult (Value × St) :=
  match fuel with
  | 0 => .error .outOfFuel
  | fuel + 1 =>
      if membername = "value__" then
        match readInt32 s with
        | .error e => .error e
        | .ok (i, s) => .ok (.prim (.pInt i), s)
      else if membername = "_busyCount" then
        match readInt32 s with
        | .error e => .error e
        | .ok (i, s) => .ok (.prim (.pInt i), s)
      else if membername = "_monitor" ∨ membername = "Collection`1+items" then
        match read_record fuel s with
        | .error e => .error e
        | .ok (r, s) => .ok (.record r, s)
      else .error (.valueErrorUnknownMember clsname membername)

/-- The member loop of `ClassWithMembers.read_members`: one
`read_unknown_member` per member name. -/
def read_members_unknown (fuel : Nat) (clsname : String) (names : List String)
    (s : St) : DResult (List Value × St) :=
  match fuel with
  | 0 => .error .outOfFuel
  | fuel + 1 =>
      match names with
      | [] => .ok ([], s)
      | name :: names =>
          match read_unknown_member fuel clsname name s with
          | .error e => .error e
          | .ok (v, s) =>
              match read_members_unknown fuel clsname names s with
              | .error e => .error e
              | .ok (vs, s) => .ok (v :: vs, s)

/-- dump.py `read_system_class_members`: hardcoded layouts for `System.Guid`
(`'IHHBBBBBBBB'`), `System.Version` (`'iiii'`) and generic lists (one record
plus `'ii'`); everything else raises `ValueError`. -/
def read_system_class_members (fuel : Nat) (name : String) (s : St) :
    DResult (List Value × St) :=
  match fuel with
  | 0 => .error .outOfFuel
  | fuel + 1 =>
      if name = "System.Guid" then
        match takeExact 16 s.input with
        | none => .error .structShort
        | some (bs, rest) =>
            .ok ((structFields [4, 2, 2, 1, 1, 1, 1, 1, 1, 1, 1] bs).map
                   (fun v => .prim (.pInt (v : Int))), { s with input := rest })
      else if name = "System.Version" then
        match takeExact 16 s.input with
        | none => .error .structShort
        | some (bs, rest) =>
            .ok ((leInt32Fields bs).map (fun v => .prim (.pInt v)),
                 { s with input := rest })
      else if name.startsWith "System.Collections.Generic.List`1" then
        match read_record fuel s with
        | .error e => .error e
        | .ok (r, s) =>
            match readPairInt32 s with
            | .error e => .error e
            | .ok ((a, b), s) =>
                .ok ([.record r, .prim (.pInt a), .prim (.pInt b)], s)
      else .error (.valueErrorSystemClass name)

/-- Dispatch of `classref.read_members(f)` on the kind of the resolved object.
`id` is the metadata id whose resolution is being used as a class template; a
record kind with no `read_members` layout raises `AttributeError` in the
source, modeled as `DErr.notAClassTemplate id`. -/
def record_read_members (fuel : Nat) (id : Int) (r : Record) (s : St) :
    DResult (List Value × St) :=
  match fuel with
  | 0 => .error .outOfFuel
  | fuel + 1 =>
      match r with
      | .classWithMembersAndTypes _ mti _ _ =>
          read_members_typed fuel mti.BinaryTypeEnums mti.AdditionalInfos s
      | .classWithMembers ci _ _ =>
          read_members_unknown fuel ci.Name ci.MemberNames s
      | .systemClassWithMembers ci _ =>
          read_system_class_members fuel ci.Name s
      | .classWithId _ mdid classref _ =>
          match classref with
          | none => .error (.attributeError "classref")
          | some c => record_read_members fuel mdid c s
      | _ => .error (.notAClassTemplate id)

/-- The while-loop of `BinaryArray.read_arraydata`: keep reading elements while
the logical position `i` is below the budget `n`, advancing `i` by
`arrayStep` of each decoded element. -/
def arraydata_loop (fuel : Nat) (ty : BinaryType) (info : AddInfo) (n i : Int)
    (s : St) : DResult (List Value × St) :=
  match fuel with
  | 0 => .error .outOfFuel
  | fuel + 1 =>
      if i < n then
        match read_typed_member fuel ty info s with
        | .error e => .error e
        | .ok (obj, s) =>
            match arraydata_loop fuel ty info n (i + arrayStep obj) s with
            | .error e => .error e
            | .ok (data, s) => .ok (obj :: data, s)
      else .ok ([], s)

/-- dump.py `BinaryArray.read_arraydata`: element budget `n` is the product of
the per-dimension lengths, starting logical position 0. -/
def read_arraydata (fuel : Nat) (ty : BinaryType) (info : AddInfo)
    (lengths : List Int) (s : St) : DResult (List Value × St) :=
  match fuel with
  | 0 => .error .outOfFuel
  | fuel + 1 => arraydata_loop fuel ty info (arrayCount lengths) 0 s

/-- Member-payload stage of `ClassWithMembersAndTypes.fromfile`: everything
executed after `OBJECTS[classinfo.ObjectId] = ret`; the final slot refresh
models the Python table aliasing the record whose `memberdata` was stamped. -/
def cwmat_members_stage (fuel : Nat) (ci : ClassInfo) (mti : MemberTypeInfo)
    (lib : Int) (s : St) : DResult (Record × St) :=
  match fuel with
  | 0 => .error .outOfFuel
  | fuel + 1 =>
      match read_members_typed fuel mti.BinaryTypeEnums mti.AdditionalInfos s with
      | .error e => .error e
      | .ok (md, s) =>
          let final := Record.classWithMembersAndTypes ci mti lib md
          .ok (final, insertObject ci.ObjectId final s)

/-- dump.py `ClassWithMembersAndTypes.fromfile`: metadata, then registration
under the object id, then member payloads. -/
def classWithMembersAndTypes_fromfile (fuel : Nat) (s : St) : DResult (Record × St) :=
  match fuel with
  | 0 => .error .outOfFuel
  | fuel + 1 =>
      match cwmat_header s with
      | .error e => .error e
      | .ok ((ci, mti, lib), s) =>
          cwmat_members_stage fuel ci mti lib
            (insertObject ci.ObjectId (cwmatPrelim ci mti lib) s)

/-- Member-payload stage of `ClassWithMembers.fromfile`. -/
def cwm_members_stage (fuel : Nat) (ci : ClassInfo) (lib : Int) (s : St) :
    DResult (Record × St) :=
  match fuel with
  | 0 => .error .outOfFuel
  | fuel + 1 =>
      match read_members_unknown fuel ci.Name ci.MemberNames s with
      | .error e => .error e
      | .ok (md, s) =>
          let final := Record.classWithMembers ci lib md
          .ok (final, insertObject ci.ObjectId final s)

/-- dump.py `ClassWithMembers.fromfile`. -/
def classWithMembers_fromfile (fuel : Nat) (s : St) : DResult (Record × St) :=
  match fuel with
  | 0 => .error .outOfFuel
  | fuel + 1 =>
      match cwm_header s with
      | .error e => .error e
      | .ok ((ci, lib), s) =>
          cwm_members_stage fuel ci lib (insertObject ci.ObjectId (cwmPrelim ci lib) s)

/-- Member-payload stage of `SystemClassWithMembers.fromfile`. -/
def scwm_members_stage (fuel : Nat) (ci : ClassInfo) (s : St) :
    DResult (Record × St) :=
  match fuel with
  | 0 => .error .outOfFuel
  | fuel + 1 =>
      match read_system_class_members fuel ci.Name s with
      | .error e => .error e
      | .ok (md, s) =>
          let final := Record.systemClassWithMembers ci md
          .ok (final, insertObject ci.ObjectId final s)

/-- dump.py `SystemClassWithMembers.fromfile`. -/
def systemClassWithMembers_fromfile (fuel : Nat) (s : St) : DResult (Record × St) :=
  match fuel with
  | 0 => .error .outOfFuel
  | fuel + 1 =>
      match classInfo_fromfile s with
      | .error e => .error e
      | .ok (ci, s) =>
          scwm_members_stage fuel ci (insertObject ci.ObjectId (scwmPrelim ci) s)

/-- dump.py `ClassWithId.fromfile`: reads `(objid, mdid)`, registers itself,
resolves `OBJECTS[mdid]` (`KeyError` when absent), and reads its members using
the resolved object's layout.  When `mdid` equals the record's own `objid`,
the lookup (performed after the self-registration) returns the record itself,
`ret.classref = ret`, and `ret.read_members` recurses forever — Python crashes
with `RecursionError`, modeled by the explicit `objid = mdid` branch.  (For
`mdid ≠ objid` the resolved `classref` is a snapshot of an earlier, fully
finalized record, so no aliasing cycle can arise.) -/
def classWithId_fromfile (fuel : Nat) (s : St) : DResult (Record × St) :=
  match fuel with
  | 0 => .error .outOfFuel
  | fuel + 1 =>
      match readPairInt32 s with
      | .error e => .error e
      | .ok ((objid, mdid), s) =>
          let s := insertObject objid (Record.classWithId objid mdid none []) s
          match lookupObject mdid s with
          | none => .error (.unresolvedReference mdid)
          | some classref =>
              if objid = mdid then .error .recursionError
              else
                match record_read_members fuel mdid classref s with
                | .error e => .error e
                | .ok (md, s) =>
                    let final := Record.classWithId objid mdid (some classref) md
                    .ok (final, insertObject objid final s)

/-- Element-payload stage of `BinaryArray.fromfile`: everything executed after
`OBJECTS[objid] = ret`. -/
def ba_members_stage (fuel : Nat) (objid : Int) (batype : BinaryArrayType)
    (rank : Int) (lengths : List Int) (lbs : Option (List Int))
    (ty : BinaryType) (info : AddInfo) (s : St) : DResult (Record × St) :=
  match fuel with
  | 0 => .error .outOfFuel
  | fuel + 1 =>
      match read_arraydata fuel ty info lengths s with
      | .error e => .error e
      | .ok (data, s) =>
          let final := Record.binaryArray objid batype rank lengths lbs ty info data
          .ok (final, insertObject objid final s)

/-- dump.py `BinaryArray.fromfile`: metadata, then registration under the
object id, then array elements. -/
def binaryArray_fromfile (fuel : Nat) (s : St) : DResult (Record × St) :=
  match fuel with
  | 0 => .error .outOfFuel
  | fuel + 1 =>
      match binaryArray_header s with
      | .error e => .error e
      | .ok ((objid, batype, rank, lengths, lbs, ty, info), s) =>
          ba_members_stage fuel objid batype rank lengths lbs ty info
            (insertObject objid (baPrelim objid batype rank lengths lbs ty info) s)

end

/-- dump.py `dump_file`: repeatedly read records until `EOFError`, which is
treated as clean termination wherever it is raised (the `except EOFError`
clause); any other exception stops the loop and propagates.  Returns the
records decoded so far, the propagated error if any, and the final state. -/
def dump_file (fuel : Nat) (s : St) : List Record × Option DErr × St :=
  match fuel with
  | 0 => ([], some .outOfFuel, s)
  | fuel + 1 =>
      match read_record fuel s with
      | .error .eof => ([], none, s)
      | .error e => ([], some e, s)
      | .ok (r, s') =>
          let (rs, err, s'') := dump_file fuel s'
          (r :: rs, err, s'')

/-- Record kinds whose Python classes define `read_members`, i.e. that can
supply a member layout when resolved through a `ClassWithId` metadata id
(`ClassWithMembersAndTypes`, `ClassWithMembers`, `SystemClassWithMembers`,
`ClassWithId`); every other kind raises `AttributeError` at
`classref.read_members`. -/
def isClassTemplateKind : Record → Bool
  | .classWithMembersAndTypes .. => true
  | .classWithMembers .. => true
  | .systemClassWithMembers .. => true
  | .classWithId .. => true
  | _ => false

/-- Fresh starting state for a decode of `bs`: empty Object Graph Table and
Library Table, as at interpreter start. -/
def st0 (bs : List Nat) : St := { input := bs, objects := [], libraries := [] }

/-- Test-input helper: a short ASCII string in dump.py's length-prefixed wire
form (one varint length byte suffices for the names used here). -/
def encStr (s : String) : List Nat := s.length :: (s.data.map Char.toNat)

/-- Spec-side definition for claim C9 (deliberately written from the spec's
words, to be compared against the source's `readvarlen`): the little-endian
base-128 varint encoding of `n` — low 7 bits per byte, shifted by `7 * k` for
the `k`-th byte, high bit set exactly on the non-final bytes. -/
def specVarintEncode (n : Nat) : List Nat :=
  if h : n < 128 then [n]
  else
    have : n / 128 < n := Nat.div_lt_self (by omega) (by omega)
    (n % 128 + 128) :: specVarintEncode (n / 128)

/-- C1 input: a `BinaryArray` (tag 7), object id 1, kind Single, rank 1,
declared length 4, element type `Object`, whose single element is an
`ObjectNullMultiple` (tag 14) with null count 10 — the cumulative consumed
positions (10) overshoot the declared count (4). -/
def c1bytes : List Nat :=
  [7, 1, 0, 0, 0, 0, 1, 0, 0, 0, 4, 0, 0, 0, 2, 14, 10, 0, 0, 0]

def c1record : Record :=
  .binaryArray 1 .Single 1 [4] none .Object .noInfo [.record (.objectNullMultiple 10)]

def c1final : St :=
  ⟨[], [(1, c1record), (1, baPrelim 1 .Single 1 [4] none .Object .noInfo)], []⟩

/-- C2 input: a `ClassWithMembers` (tag 3, object id 1, one member `_monitor`)
whose member payload is a `ClassWithId` (tag 1, object id 2) whose MetadataId
refers back to the still-under-construction object id 1; the nested member is
an `ObjectNull` (tag 10).  Decoding succeeds only because the outer object is
registered before its member payload is read. -/
def c2bytes : List Nat :=
  [3, 1, 0, 0, 0] ++ encStr "C" ++ [1, 0, 0, 0] ++ encStr "_monitor" ++
  [9, 0, 0, 0, 1, 2, 0, 0, 0, 1, 0, 0, 0, 10]

def c2ci : ClassInfo := ⟨1, "C", 1, ["_monitor"]⟩

def c2inner : Record := .classWithId 2 1 (some (cwmPrelim c2ci 9)) [.record .objectNull]

def c2record : Record := .classWithMembers c2ci 9 [.record c2inner]

def c2final : St :=
  ⟨[], [(1, c2record), (2, c2inner), (2, .classWithId 2 1 none []), (1, cwmPrelim c2ci 9)], []⟩

/-- C2 witness input: the byte suffix of a `ClassWithMembersAndTypes` record
after its tag — ClassInfo (id 1, name `C`, one member `x`), one `Object` type
tag, library id 9, then a `MemberReference` member. -/
def c2wbytes : List Nat :=
  [1, 0, 0, 0] ++ encStr "C" ++ [1, 0, 0, 0] ++ encStr "x" ++
  [2, 9, 0, 0, 0, 9, 99, 0, 0, 0]

def c2wci : ClassInfo := ⟨1, "C", 1, ["x"]⟩

def c2wmti : MemberTypeInfo := ⟨[.Object], [.noInfo]⟩

/-- C3 first stream: a `ClassWithMembers` defining object id 1 (class `C`, one
member `value__` decoded as an int32, value 42. -/
def c3s1 : List Nat :=
  [3, 1, 0, 0, 0] ++ encStr "C" ++ [1, 0, 0, 0] ++ encStr "value__" ++
  [9, 0, 0, 0, 42, 0, 0, 0]

/-- C3 second stream: a `ClassWithId` (object id 2) whose MetadataId 1 is
defined only by the FIRST stream, with member payload 43. -/
def c3s2 : List Nat := [1, 2, 0, 0, 0, 1, 0, 0, 0, 43, 0, 0, 0]

def c3ci : ClassInfo := ⟨1, "C", 1, ["value__"]⟩

def c3template : Record := .classWithMembers c3ci 9 [.prim (.pInt 42)]

/-- Final state after decoding `c3s1` from a fresh state: the registrations
are still in the tables when `dump_file` returns. -/
def c3state1 : St := ⟨[], [(1, c3template), (1, cwmPrelim c3ci 9)], []⟩

def c3seqRecord : Record := .classWithId 2 1 (some c3template) [.prim (.pInt 43)]

def c3seqFinal : St :=
  ⟨[], [(2, c3seqRecord), (2, .classWithId 2 1 none []), (1, c3template),
        (1, cwmPrelim c3ci 9)], []⟩

/-- C4 input: a `ClassWithMembersAndTypes` (tag 5) with one `Object` member
whose payload is a `MemberReference` to id 99, which no record in the stream
defines. -/
def c4bytes : List Nat :=
  [5, 1, 0, 0, 0] ++ encStr "C" ++ [1, 0, 0, 0] ++ encStr "x" ++
  [2, 9, 0, 0, 0, 9, 99, 0, 0, 0]

def c4ci : ClassInfo := ⟨1, "C", 1, ["x"]⟩

def c4mti : MemberTypeInfo := ⟨[.Object], [.noInfo]⟩

def c4record : Record := .classWithMembersAndTypes c4ci c4mti 9 [.record (.memberReference 99)]

def c4final : St := ⟨[], [(1, c4record), (1, cwmatPrelim c4ci c4mti 9)], []⟩

/-- C6 input: two `BinaryObjectString` records (tag 6) both carrying object
id 1, with payloads `"a"` and `"b"`. -/
def c6bytes : List Nat := [6, 1, 0, 0, 0, 1, 97, 6, 1, 0, 0, 0, 1, 98]

def c6final : St :=
  ⟨[], [(1, .binaryObjectString 1 "b"), (1, .binaryObjectString 1 "a")], []⟩

/-- C7 input: a `ClassWithMembers` record truncated exactly where its member
payload (a nested record) should begin — end-of-stream is hit at the NESTED
record's tag byte, inside the outer record. -/
def c7bytes : List Nat :=
  [3, 1, 0, 0, 0] ++ encStr "C" ++ [1, 0, 0, 0] ++ encStr "_monitor" ++ [9, 0, 0, 0]

/-- C10 input: a `BinaryArray` of declared length 1 whose elements are an
`ObjectNullMultiple256` with wire byte 255 (decoded null count -1) followed by
two `ObjectNull` records. -/
def c10bytes : List Nat :=
  [7, 1, 0, 0, 0, 0, 1, 0, 0, 0, 1, 0, 0, 0, 2, 13, 255, 10, 10]

def c10record : Record :=
  .binaryArray 1 .Single 1 [1] none .Object .noInfo
    [.record (.objectNullMultiple256 (-1)), .record .objectNull, .record .objectNull]

def c10final : St :=
  ⟨[], [(1, c10record), (1, baPrelim 1 .Single 1 [1] none .Object .noInfo)], []⟩

/-- A dictionary store under one key leaves lookups of other keys unchanged. -/
theorem lookupObject_insert_ne (k k' : Int) (r : Record) (s : St) (h : k' ≠ k) :
    lookupObject k (insertObject k' r s) = lookupObject k s := by
  simp [lookupObject, insertObject, lookupTable, h]

/-- C8: DateTime decoding as the code performs it — tick 0 with kind tag 0
decodes to the epoch (year 1, Jan 1, 00:00:00, microsecond offset 0); the top
2 kind-tag bits are discarded (tick 1 with kind tag 0 and with kind tag 3
decode identically); but an input whose 62-bit tick field has its sign bit
set (here `val = 2 ^ 61`, giving tick count `-2 ^ 61`) makes
`datetime(1,1,1) + timedelta(...)` leave the representable datetime range, so
the code raises `OverflowError` instead of producing the timestamp strictly
before the epoch that the claim (and the spec) promise. -/
theorem c8_datetime_behaviour :
    read_primitive .DateTime (st0 [0, 0, 0, 0, 0, 0, 0, 0]) = .ok (.pDateTime 0, st0 []) ∧
    read_primitive .DateTime (st0 [1, 0, 0, 0, 0, 0, 0, 0]) =
      read_primitive .DateTime (st0 [1, 0, 0, 0, 0, 0, 0, 192]) ∧
    read_primitive .DateTime (st0 [0, 0, 0, 0, 0, 0, 0, 32]) = .error .overflowError :=
  ⟨rfl, rfl, rfl⟩

/-- C4 counterexample: a stream whose only record is a `MemberReference` whose
IdRef (99) no record ever defines decodes cleanly — one placeholder record and
no error — although the claim requires an `UnresolvedReference` decode
failure. -/
theorem c4_dangling_reference_accepted :
    dump_file 20 (st0 [9, 99, 0, 0, 0]) = ([.memberReference 99], none, st0 []) := rfl

/-- C4 (amended): `MemberReference.fromfile` reads only the 4-byte IdRef and
never consults the Object Graph Table, so it succeeds for every table —
including tables that do not contain the referenced id — yielding an
unresolved placeholder record; a dangling reference inside a class member
decodes the same way, with no error. -/
theorem c4_memberreference_placeholder :
    (∀ (b0 b1 b2 b3 : Nat) (rest : List Nat) (objs libs : List (Int × Record)),
        memberReference_fromfile ⟨b0 :: b1 :: b2 :: b3 :: rest, objs, libs⟩ =
          .ok (.memberReference (toSigned 32 (leUInt [b0, b1, b2, b3])), ⟨rest, objs, libs⟩)) ∧
    dump_file 30 (st0 c4bytes) = ([c4record], none, c4final) := by
  refine ⟨?_, rfl⟩
  intro b0 b1 b2 b3 rest objs libs
  have h4 : takeExact 4 (b0 :: b1 :: b2 :: b3 :: rest) = some ([b0, b1, b2, b3], rest) := by
    unfold takeExact
    rw [if_neg (by simp only [List.length_cons]; omega)]
    simp
  simp [memberReference_fromfile, readInt32, h4]

/-- C6 counterexample: a stream carrying two `BinaryObjectString` records with
the same object id 1 decodes cleanly to both records with no error, although
the claim requires a `DuplicateObjectId` decode failure on the second. -/
theorem c6_duplicate_id_accepted :
    (dump_file 20 (st0 c6bytes)).2.1 = none ∧
    (dump_file 20 (st0 c6bytes)).1 =
      [.binaryObjectString 1 "a", .binaryObjectString 1 "b"] :=
  ⟨rfl, rfl⟩

/-- C6 (amended): registration is a plain dictionary store with no duplicate
check — registering under an already-used id always succeeds and the new entry
shadows the old one; concretely, the duplicate-id stream decodes both records
and the table afterwards resolves id 1 to the SECOND string. -/
theorem c6_registration_overwrites :
    (∀ (k : Int) (r : Record) (s : St), lookupObject k (insertObject k r s) = some r) ∧
    dump_file 20 (st0 c6bytes) =
      ([.binaryObjectString 1 "a", .binaryObjectString 1 "b"], none, c6final) ∧
    lookupObject 1 c6final = some (.binaryObjectString 1 "b") := by
  refine ⟨?_, rfl, rfl⟩
  intro k r s
  simp [lookupObject, insertObject, lookupTable]

/-- C7 counterexample: `c7bytes` ends exactly where a member's nested record
should begin, i.e. end-of-stream is hit INSIDE a record (at the nested tag
byte); decoding nevertheless terminates cleanly (no error), because the
`EOFError` raised by the nested `read_record` is caught by `dump_file`'s
top-level `except EOFError` clause — although the claim requires an
`UnexpectedEndOfStream` failure there. -/
theorem c7_nested_eof_clean :
    dump_file 30 (st0 c7bytes) = ([], none, st0 c7bytes) := rfl

/-- C7 (amended): end-of-stream at a top-level record boundary terminates
cleanly; end-of-stream inside a fixed-width field is an error
(`struct.error`); but end-of-stream positioned at a NESTED record's tag byte
is also treated as clean termination, because `EOFError` is caught at the top
level no matter how deep it was raised. -/
theorem c7_eof_boundaries :
    (∀ (fuel : Nat) (objs libs : List (Int × Record)),
        dump_file (fuel + 2) ⟨[], objs, libs⟩ = ([], none, ⟨[], objs, libs⟩)) ∧
    dump_file 30 (st0 c7bytes) = ([], none, st0 c7bytes) ∧
    dump_file 30 (st0 [6, 1, 0]) = ([], some .structShort, st0 [6, 1, 0]) :=
  ⟨fun _ _ _ => rfl, rfl, rfl⟩

/-- C3 counterexample: decoding `c3s2` directly after `c3s1` (reusing the
tables `dump_file` left behind) yields one successfully decoded record and no
error, while decoding `c3s2` alone from a fresh state yields no records and an
`UnresolvedReference` error — the two runs do NOT yield the same records and
errors, contradicting the claim. -/
theorem c3_sequential_differs_from_fresh :
    (dump_file 30 { input := c3s2, objects := (dump_file 30 (st0 c3s1)).2.2.objects,
                    libraries := (dump_file 30 (st0 c3s1)).2.2.libraries }).1 =
      [c3seqRecord] ∧
    (dump_file 30 { input := c3s2, objects := (dump_file 30 (st0 c3s1)).2.2.objects,
                    libraries := (dump_file 30 (st0 c3s1)).2.2.libraries }).2.1 = none ∧
    (dump_file 30 (st0 c3s2)).1 = [] ∧
    (dump_file 30 (st0 c3s2)).2.1 = some (.unresolvedReference 1) :=
  ⟨rfl, rfl, rfl, rfl⟩

/-- C3 (amended): the Object Graph Table and Library Table are module-level
state threaded across decode invocations, not constructed fresh per call:
`dump_file` leaves every registration of `c3s1` in its final state, and a
second decode run on that state resolves the first stream's object id 1,
which a fresh-state decode of the same bytes cannot. -/
theorem c3_tables_persist_across_decodes :
    dump_file 30 (st0 c3s1) = ([c3template], none, c3state1) ∧
    c3state1.objects = [(1, c3template), (1, cwmPrelim c3ci 9)] ∧
    dump_file 30 { input := c3s2, objects := c3state1.objects,
                   libraries := c3state1.libraries } =
      ([c3seqRecord], none, c3seqFinal) :=
  ⟨rfl, rfl, rfl⟩

/-- C10: `ObjectNullMultiple256` decodes its one-byte null count as a SIGNED
byte — every wire byte 128..255 yields `NullCount = byte - 256 < 0` — the
array loop advances its position counter by exactly that (negative) count, and
concretely a declared-length-1 array whose first element is the marker byte
255 goes BACKWARDS and ends up decoding three elements. -/
theorem c10_onm256_signed_byte :
    (∀ (b : Nat) (rest : List Nat) (objs libs : List (Int × Record)),
        128 ≤ b → b ≤ 255 →
        objectNullMultiple256_fromfile ⟨b :: rest, objs, libs⟩ =
          .ok (.objectNullMultiple256 ((b : Int) - 256), ⟨rest, objs, libs⟩) ∧
        (b : Int) - 256 < 0) ∧
    (∀ c : Int, arrayStep (.record (.objectNullMultiple256 c)) = c) ∧
    dump_file 30 (st0 c10bytes) = ([c10record], none, c10final) := by
  refine ⟨?_, fun _ => rfl, rfl⟩
  intro b rest objs libs hb hb'
  have h1 : takeExact 1 (b :: rest) = some ([b], rest) := by
    unfold takeExact
    rw [if_neg (by simp)]
    simp
  have h2 : toSigned 8 (leUInt [b]) = (b : Int) - 256 := by
    have hleu : leUInt [b] = b := by simp [leUInt]
    rw [hleu]
    unfold toSigned
    rw [if_neg (by norm_num; omega)]
    norm_num
  refine ⟨?_, by omega⟩
  simp [objectNullMultiple256_fromfile, h1, h2]

/-- C10 witness: the universal part applied at wire byte 255. -/
theorem c10_onm256_signed_byte_witness :
    objectNullMultiple256_fromfile ⟨[255], [], []⟩ =
      .ok (.objectNullMultiple256 (-1), ⟨[], [], []⟩) := by
  have h := (c10_onm256_signed_byte.1 255 [] [] [] (by omega) (by omega)).1
  simpa using h

/-- C2: for every class-defining record (`ClassWithMembersAndTypes`,
`ClassWithMembers`, `SystemClassWithMembers`) and both array records owning an
object id (`BinaryArray`, `ArraySinglePrimitive`), once the metadata prefix has
been parsed the decode IS the member/element-payload stage run on the state in
which the new object has already been inserted under its object id, and that
entry is already visible to a table lookup at that point; concretely, the
stream `c2bytes` — whose nested `ClassWithId` back-references the
still-under-construction outer object id 1 — decodes successfully. -/
theorem c2_registration_before_members :
    (∀ (fuel : Nat) (s : St) (ci : ClassInfo) (mti : MemberTypeInfo) (lib : Int) (s1 : St),
        cwmat_header s = .ok ((ci, mti, lib), s1) →
        classWithMembersAndTypes_fromfile (fuel + 1) s =
          cwmat_members_stage fuel ci mti lib
            (insertObject ci.ObjectId (cwmatPrelim ci mti lib) s1) ∧
        lookupObject ci.ObjectId (insertObject ci.ObjectId (cwmatPrelim ci mti lib) s1) =
          some (cwmatPrelim ci mti lib)) ∧
    (∀ (fuel : Nat) (s : St) (ci : ClassInfo) (lib : Int) (s1 : St),
        cwm_header s = .ok ((ci, lib), s1) →
        classWithMembers_fromfile (fuel + 1) s =
          cwm_members_stage fuel ci lib (insertObject ci.ObjectId (cwmPrelim ci lib) s1) ∧
        lookupObject ci.ObjectId (insertObject ci.ObjectId (cwmPrelim ci lib) s1) =
          some (cwmPrelim ci lib)) ∧
    (∀ (fuel : Nat) (s : St) (ci : ClassInfo) (s1 : St),
        classInfo_fromfile s = .ok (ci, s1) →
        systemClassWithMembers_fromfile (fuel + 1) s =
          scwm_members_stage fuel ci (insertObject ci.ObjectId (scwmPrelim ci) s1) ∧
        lookupObject ci.ObjectId (insertObject ci.ObjectId (scwmPrelim ci) s1) =
          some (scwmPrelim ci)) ∧
    (∀ (fuel : Nat) (s : St) (objid : Int) (batype : BinaryArrayType) (rank : Int)
        (lengths : List Int) (lbs : Option (List Int)) (ty : BinaryType)
        (info : AddInfo) (s1 : St),
        binaryArray_header s = .ok ((objid, batype, rank, lengths, lbs, ty, info), s1) →
        binaryArray_fromfile (fuel + 1) s =
          ba_members_stage fuel objid batype rank lengths lbs ty info
            (insertObject objid (baPrelim objid batype rank lengths lbs ty info) s1) ∧
        lookupObject objid
            (insertObject objid (baPrelim objid batype rank lengths lbs ty info) s1) =
          some (baPrelim objid batype rank lengths lbs ty info)) ∧
    (∀ (s : St) (objid len : Int) (p : PrimitiveType) (s1 : St),
        asp_header s = .ok ((objid, len, p), s1) →
        arraySinglePrimitive_fromfile s =
          asp_members_stage objid len p (insertObject objid (aspPrelim objid len p) s1) ∧
        lookupObject objid (insertObject objid (aspPrelim objid len p) s1) =
          some (aspPrelim objid len p)) ∧
    dump_file 30 (st0 c2bytes) = ([c2record], none, c2final) := by
  refine ⟨?_, ?_, ?_, ?_, ?_, rfl⟩
  · intro fuel s ci mti lib s1 h
    exact ⟨by simp only [classWithMembersAndTypes_fromfile, h],
           by simp [lookupObject, insertObject, lookupTable]⟩
  · intro fuel s ci lib s1 h
    exact ⟨by simp only [classWithMembers_fromfile, h],
           by simp [lookupObject, insertObject, lookupTable]⟩
  · intro fuel s ci s1 h
    exact ⟨by simp only [systemClassWithMembers_fromfile, h],
           by simp [lookupObject, insertObject, lookupTable]⟩
  · intro fuel s objid batype rank lengths lbs ty info s1 h
    exact ⟨by simp only [binaryArray_fromfile, h],
           by simp [lookupObject, insertObject, lookupTable]⟩
  · intro s objid len p s1 h
    exact ⟨by simp only [arraySinglePrimitive_fromfile, h],
           by simp [lookupObject, insertObject, lookupTable]⟩

/-- C2 witness: the `ClassWithMembersAndTypes` component applied to the
concrete header bytes `c2wbytes`. -/
theorem c2_registration_before_members_witness :
    classWithMembersAndTypes_fromfile 21 (st0 c2wbytes) =
      cwmat_members_stage 20 c2wci c2wmti 9
        (insertObject c2wci.ObjectId (cwmatPrelim c2wci c2wmti 9) (st0 [9, 99, 0, 0, 0])) ∧
    lookupObject c2wci.ObjectId
        (insertObject c2wci.ObjectId (cwmatPrelim c2wci c2wmti 9) (st0 [9, 99, 0, 0, 0])) =
      some (cwmatPrelim c2wci c2wmti 9) :=
  c2_registration_before_members.1 20 (st0 c2wbytes) c2wci c2wmti 9 (st0 [9, 99, 0, 0, 0]) rfl

/-- C5 counterexample: a stream consisting of one `ClassWithId` whose
MetadataId (1) equals its own ObjectId and was never registered earlier
fails — but with the unbounded-recursion error (Python `RecursionError`, from
`ret.classref = OBJECTS[mdid] = ret` aliasing the record to itself), not with
`UnresolvedReference` as the claim requires for a MetadataId never registered
earlier in the stream. -/
theorem c5_self_metadata_recursion :
    dump_file 10 (st0 [1, 1, 0, 0, 0, 1, 0, 0, 0]) =
      ([], some .recursionError, st0 [1, 1, 0, 0, 0, 1, 0, 0, 0]) := rfl

/-- C5 (amended): for a `ClassWithId` with `objid ≠ mdid`, a MetadataId absent
from the Object Graph Table fails with `UnresolvedReference mdid`, and a
MetadataId resolving to an object that cannot supply a member layout (any
non-class-template kind, e.g. a string) fails with `NotAClassTemplate mdid`;
in the degenerate case `objid = mdid` the self-registration aliases the record
to itself and decoding fails with the recursion error instead. -/
theorem c5_classwithid_errors :
    ∀ (fuel : Nat) (s : St) (objid mdid : Int) (s1 : St),
      readPairInt32 s = .ok ((objid, mdid), s1) →
      (objid ≠ mdid → lookupObject mdid s1 = none →
          classWithId_fromfile (fuel + 1) s = .error (.unresolvedReference mdid)) ∧
      (objid = mdid →
          classWithId_fromfile (fuel + 1) s = .error .recursionError) ∧
      (∀ c : Record, objid ≠ mdid → lookupObject mdid s1 = some c →
          isClassTemplateKind c = false →
          classWithId_fromfile (fuel + 2) s = .error (.notAClassTemplate mdid)) := by
  intro fuel s objid mdid s1 hpair
  refine ⟨?_, ?_, ?_⟩
  · intro hne hnone
    simp only [classWithId_fromfile, hpair,
               lookupObject_insert_ne mdid objid _ s1 hne, hnone]
  · intro heq
    subst heq
    simp [classWithId_fromfile, hpair, lookupObject, insertObject, lookupTable]
  · intro c hne hsome hkind
    have hrm : ∀ s2 : St,
        record_read_members (fuel + 1) mdid c s2 = .error (.notAClassTemplate mdid) := by
      intro s2
      cases c <;> simp_all [record_read_members, isClassTemplateKind]
    simp only [classWithId_fromfile, hpair,
               lookupObject_insert_ne mdid objid _ s1 hne, hsome, if_neg hne, hrm]

/-- C5 witness: the amended theorem applied at two concrete states — an empty
table (unresolved reference) and a table mapping id 1 to a string
(not a class template). -/
theorem c5_classwithid_errors_witness :
    classWithId_fromfile 5 (st0 [2, 0, 0, 0, 1, 0, 0, 0]) = .error (.unresolvedReference 1) ∧
    classWithId_fromfile 5 ⟨[2, 0, 0, 0, 1, 0, 0, 0], [(1, .binaryObjectString 1 "s")], []⟩ =
      .error (.notAClassTemplate 1) := by
  constructor
  · exact (c5_classwithid_errors 4 (st0 [2, 0, 0, 0, 1, 0, 0, 0]) 2 1 (st0 []) rfl).1
      (by decide) rfl
  · exact (c5_classwithid_errors 3
      ⟨[2, 0, 0, 0, 1, 0, 0, 0], [(1, .binaryObjectString 1 "s")], []⟩ 2 1
      ⟨[], [(1, .binaryObjectString 1 "s")], []⟩ rfl).2.2
      (.binaryObjectString 1 "s") (by decide) rfl rfl

/-- C1 counterexample: decoding `c1bytes` — a `BinaryArray` with declared
element count 4 whose single null-run marker consumes 10 logical positions,
overshooting the declared count — succeeds with no error, although the claim
requires such a stream to be rejected with a decode error. -/
theorem c1_overshoot_accepted :
    dump_file 20 (st0 c1bytes) = ([c1record], none, c1final) := rfl

/-- C1 (amended): the array loop consumes logical positions until the
cumulative count is AT LEAST the product of the declared per-dimension lengths
— on success the consumed positions always reach the declared count, but a
stream whose null-run makes the sum overshoot the declared count is accepted
(the loop just stops past the budget), not rejected; concretely `c1bytes`
(declared count 4) decodes successfully having consumed 10 positions. -/
theorem c1_array_count_consumption :
    (∀ (fuel : Nat) (ty : BinaryType) (info : AddInfo) (n i : Int) (s : St)
        (data : List Value) (s' : St),
        arraydata_loop fuel ty info n i s = .ok (data, s') →
        n ≤ i + consumedPositions data) ∧
    read_record 20 (st0 c1bytes) = .ok (c1record, c1final) ∧
    arrayCount [4] = 4 ∧
    consumedPositions [Value.record (.objectNullMultiple 10)] = 10 := by
  refine ⟨?_, rfl, by decide, by decide⟩
  intro fuel
  induction fuel with
  | zero =>
      intro ty info n i s data s' h
      simp [arraydata_loop] at h
  | succ fuel ih =>
      intro ty info n i s data s' h
      simp only [arraydata_loop] at h
      by_cases hin : i < n
      · rw [if_pos hin] at h
        cases hr : read_typed_member fuel ty info s with
        | error e => simp [hr] at h
        | ok v =>
            obtain ⟨obj, s1⟩ := v
            simp only [hr] at h
            cases hl : arraydata_loop fuel ty info n (i + arrayStep obj) s1 with
            | error e => simp [hl] at h
            | ok w =>
                obtain ⟨data', s2⟩ := w
                simp only [hl, Except.ok.injEq, Prod.mk.injEq] at h
                obtain ⟨hd, _⟩ := h
                subst hd
                have hrec := ih ty info n (i + arrayStep obj) s1 data' s2 hl
                simp only [consumedPositions, List.map_cons, List.sum_cons] at hrec ⊢
                omega
      · rw [if_neg hin] at h
        simp only [Except.ok.injEq, Prod.mk.injEq] at h
        obtain ⟨hd, _⟩ := h
        subst hd
        simp only [consumedPositions, List.map_nil, List.sum_nil]
        omega

set_option maxRecDepth 4000 in
/-- C1 witness: the invariant applied to the concrete element bytes of
`c1bytes` (budget 4, start position 0, one marker consuming 10). -/
theorem c1_array_count_consumption_witness :
    (4 : Int) ≤ 0 + consumedPositions [Value.record (.objectNullMultiple 10)] :=
  c1_array_count_consumption.1 5 .Object .noInfo 4 0 ⟨[14, 10, 0, 0, 0], [], []⟩
    [Value.record (.objectNullMultiple 10)] ⟨[], [], []⟩ rfl

set_option maxRecDepth 40000 in
/-- Single-byte facts used by the varint length loop: masking with `0x7f` is
reduction mod 128, and the `0x80` test reads the high bit. -/
theorem byte_and_facts : ∀ c : Nat, c < 256 →
    c &&& 0x7f = c % 128 ∧ (c &&& 0x80 = 0 ↔ c < 128) := by decide

/-- The varint length loop of `readvarstr` decodes the spec's encoding into
the accumulator, for every accumulator and shift. -/
theorem readvarlen_spec_encode (n : Nat) : ∀ (acc v : Nat) (rest : List Nat),
    readvarlen (specVarintEncode n ++ rest) acc v = .ok (acc + n * 2 ^ v, rest) := by
  induction n using Nat.strong_induction_on with
  | _ n ih =>
    intro acc v rest
    rw [specVarintEncode]
    split
    · next h =>
        simp only [List.cons_append, List.nil_append, List.append_eq, readvarlen]
        rw [if_neg (by simp [(byte_and_facts n (by omega)).2.mpr h])]
        rw [(byte_and_facts n (by omega)).1, Nat.mod_eq_of_lt h, Nat.shiftLeft_eq]
    · next h =>
        simp only [List.cons_append, List.append_eq, readvarlen]
        have hb := byte_and_facts (n % 128 + 128) (by omega)
        rw [if_pos (fun h0 => absurd (hb.2.mp h0) (by omega))]
        rw [ih (n / 128) (Nat.div_lt_self (by omega) (by omega))]
        rw [hb.1, Nat.add_mod_right, Nat.shiftLeft_eq]
        have key : acc + n % 128 % 128 * 2 ^ v + n / 128 * 2 ^ (v + 7) =
            acc + n * 2 ^ v := by
          rw [Nat.mod_mod_of_dvd n (dvd_refl 128), pow_add]
          have h7 : (2 : Nat) ^ 7 = 128 := by norm_num
          rw [h7]
          conv_rhs => rw [← Nat.mod_add_div n 128]
          ring
        rw [key]

/-- C9: for every non-negative integer `n`, running the source's varint length
loop on the little-endian base-128 encoding of `n` (low 7 bits per byte,
shifted by `7 * k` for the `k`-th byte, high bit set exactly on non-final
bytes) yields exactly `n` and leaves the remaining bytes untouched — including
the 7-bit-group boundary values 0, 127, 128, 16383 and 16384. -/
theorem c9_varint_roundtrip :
    (∀ (n : Nat) (rest : List Nat),
        readvarlen (specVarintEncode n ++ rest) 0 0 = .ok (n, rest)) ∧
    readvarlen (specVarintEncode 0) 0 0 = .ok (0, []) ∧
    readvarlen (specVarintEncode 127) 0 0 = .ok (127, []) ∧
    readvarlen (specVarintEncode 128) 0 0 = .ok (128, []) ∧
    readvarlen (specVarintEncode 16383) 0 0 = .ok (16383, []) ∧
    readvarlen (specVarintEncode 16384) 0 0 = .ok (16384, []) := by
  have main : ∀ (n : Nat) (rest : List Nat),
      readvarlen (specVarintEncode n ++ rest) 0 0 = .ok (n, rest) := by
    intro n rest
    simpa using readvarlen_spec_encode n 0 0 rest
  refine ⟨main, ?_, ?_, ?_, ?_, ?_⟩ <;> simpa using main _ []
